import Mathlib

/-!
# Verification of the Kyne / ShegerPay Python SDK request/response layer

Shallow embedding of `src/python/kyne.py` and `src/python/shegerpay.py`.
The two files are copy-identical except for branding literals (default base
URL, user-agent, default merchant name, base-error class name) and the extra
"rich resource" endpoint families present only in `shegerpay.py`.  Code that
is textually identical in both files is embedded once, in the `Sdk`
namespace; branded differences are embedded per client.

Modelling conventions:
* Python `str` is Lean `String` (a list of unicode scalar values); the
  Python string methods used by the source (`upper`, `startswith`,
  `rstrip('/')`) are embedded as `pyUpper`, `pyStartsWith`,
  `pyRstripSlashes` over `String.data`.
* JSON values are the inductive `Json`; Python numbers are `Rat` (the SDK
  never computes with them, it only copies them).
* The HTTP transport is an oracle: a call's outcome is a `TransportResult`
  (timeout, connection failure, or a status code with an optional decoded
  JSON body; `none` body means the bytes were not valid JSON, so
  `response.json()` raises).
* Python exceptions escaping `_request` are `PyOutcome`: `sdkErr` for the
  SDK's own classified errors, `rawErr` for unclassified exceptions
  (e.g. `JSONDecodeError`, `AttributeError`) that propagate to the caller.
-/

/-- A decoded JSON value, as produced by `response.json()`. -/
inductive Json where
  | null
  | bool (b : Bool)
  | num (q : Rat)
  | str (s : String)
  | arr (items : List Json)
  | obj (fields : List (String × Json))

/-- Python `dict.get(key)`: the value stored under `key`, or `None` when the
key is absent.  JSON objects decoded by `requests` have unique keys, so
taking the first match is faithful. -/
def dget (fields : List (String × Json)) (key : String) : Option Json :=
  (fields.find? (fun p => p.1 == key)).map (fun p => p.2)

/-- The SDK's error class hierarchy (`KyneError` / `ShegerPayError` with
subclasses `AuthenticationError` and `ValidationError`).  `base` is the
catch-all base exception class itself; the source defines no timeout- or
connection-specific subclass. -/
inductive ErrKind where
  | authentication
  | validation
  | base
deriving DecidableEq

/-- A raised SDK error: `KyneError(message, status_code)` and subclasses.
The message is a `Json` value because the 400 branch passes the body's
`detail` field through unchanged. -/
structure SdkError where
  kind : ErrKind
  message : Json
  status_code : Option Nat

/-- Outcome of running a piece of Python code: a returned value, a raised
classified SDK error, or a raised unclassified (raw) exception named by the
Python exception class. -/
inductive PyOutcome (α : Type) where
  | ok (val : α)
  | sdkErr (e : SdkError)
  | rawErr (name : String)

/-- The environment's answer to one HTTP round trip: the transport raises
`requests.exceptions.Timeout`, raises `requests.exceptions.ConnectionError`,
or delivers a response with a status code and a body (`none` when the body
bytes are not valid JSON, so that `response.json()` raises). -/
inductive TransportResult where
  | timeout
  | connFail
  | http (status : Nat) (body : Option Json)

namespace Sdk

/-- `_request`'s status/fault classification, lines 228-252 of `kyne.py` and
lines 591-624 of `shegerpay.py` (textually identical in both files; the
branded base-error class is `ErrKind.base`):
`Timeout` → base error "Request timed out"; `ConnectionError` → base error
"Connection error"; 401 → `AuthenticationError`; 400 → parse the body and
raise `ValidationError` with its `detail` field (dict lookup default
`'Validation error'`); ≥ 500 → base error "Server error"; anything else →
return `response.json()`.  On a 400 whose body is not a JSON object the
Python code raises an unclassified `JSONDecodeError` / `AttributeError`,
modelled as `rawErr`. -/
def classifyResponse (tr : TransportResult) : PyOutcome Json :=
  match tr with
  | .timeout => .sdkErr ⟨.base, .str "Request timed out", none⟩
  | .connFail => .sdkErr ⟨.base, .str "Connection error", none⟩
  | .http status body =>
    if status = 401 then
      .sdkErr ⟨.authentication, .str "Invalid API key", some 401⟩
    else if status = 400 then
      match body with
      | some (.obj fields) =>
          .sdkErr ⟨.validation, (dget fields "detail").getD (.str "Validation error"), some 400⟩
      | some _ => .rawErr "AttributeError"
      | none => .rawErr "JSONDecodeError"
    else if 500 ≤ status then
      .sdkErr ⟨.base, .str "Server error", some status⟩
    else
      match body with
      | some j => .ok j
      | none => .rawErr "JSONDecodeError"

/-- The error kind carried by an outcome, if it is a classified SDK error. -/
def kindOf? {α : Type} : PyOutcome α → Option ErrKind
  | .sdkErr e => some e.kind
  | _ => none

end Sdk

/-- C2: the claim says a network timeout is surfaced as a dedicated
`TimeoutError` member of the taxonomy and a connection failure as a
dedicated `ConnectionError` member, "distinct members of the error taxonomy
rather than the catch-all base error".  Refuted: the source's taxonomy has
only `AuthenticationError`, `ValidationError` and the base class, and both
transport faults are wrapped in the catch-all base class. -/
theorem C2_counterexample :
    Sdk.kindOf? (Sdk.classifyResponse .timeout) = some ErrKind.base
    ∧ Sdk.kindOf? (Sdk.classifyResponse .connFail) = some ErrKind.base :=
  ⟨rfl, rfl⟩

/-- C2 (amended): a network timeout is surfaced as the base error with
message "Request timed out" and no status code; a connection failure as the
base error with message "Connection error"; in both cases exactly one
classified SDK error is raised, never a raw transport exception. -/
theorem C2_amended_theorem :
    Sdk.classifyResponse .timeout = .sdkErr ⟨.base, .str "Request timed out", none⟩
    ∧ Sdk.classifyResponse .connFail = .sdkErr ⟨.base, .str "Connection error", none⟩ :=
  ⟨rfl, rfl⟩

/-- C3: the claim quantifies over every response body; but a 400 response
whose body decodes to a non-object JSON value (here the string "oops") makes
`error.get('detail', ...)` raise an unclassified `AttributeError` instead of
surfacing a `ValidationError`. -/
theorem C3_counterexample :
    Sdk.classifyResponse (.http 400 (some (.str "oops"))) = .rawErr "AttributeError" :=
  rfl

/-- C3 (amended): a 401 response is surfaced as `AuthenticationError`
regardless of body content; a 400 response whose body decodes to a JSON
object is surfaced as `ValidationError` whose message is the body's `detail`
field when present and the fallback "Validation error" otherwise.  (A 400
body that is not a JSON object escapes as a raw decoding error.) -/
theorem C3_amended_theorem :
    (∀ body : Option Json,
      Sdk.classifyResponse (.http 401 body)
        = .sdkErr ⟨.authentication, .str "Invalid API key", some 401⟩)
    ∧ (∀ fields v, dget fields "detail" = some v →
        Sdk.classifyResponse (.http 400 (some (.obj fields)))
          = .sdkErr ⟨.validation, v, some 400⟩)
    ∧ (∀ fields, dget fields "detail" = none →
        Sdk.classifyResponse (.http 400 (some (.obj fields)))
          = .sdkErr ⟨.validation, .str "Validation error", some 400⟩) := by
  refine ⟨fun body => rfl, fun fields v h => ?_, fun fields h => ?_⟩
  · simp [Sdk.classifyResponse, h]
  · simp [Sdk.classifyResponse, h]

/-- C3 witness: the amended theorem applied at a 400 body carrying a
`detail` field and at a 400 body without one. -/
theorem C3_amended_theorem_witness :
    Sdk.classifyResponse (.http 400 (some (.obj [("detail", Json.str "bad amount")])))
      = .sdkErr ⟨.validation, .str "bad amount", some 400⟩
    ∧ Sdk.classifyResponse (.http 400 (some (.obj [("other", Json.num 1)])))
      = .sdkErr ⟨.validation, .str "Validation error", some 400⟩ :=
  ⟨C3_amended_theorem.2.1 [("detail", Json.str "bad amount")] (Json.str "bad amount") rfl,
   C3_amended_theorem.2.2 [("other", Json.num 1)] rfl⟩

/-- C7: every status in 402–499 (non-2xx statuses not enumerated by the
classifier) raises no error: the response is treated as success and the
decoded body is returned unchanged (pass-through). -/
theorem C7_theorem (status : Nat) (h1 : 402 ≤ status) (h2 : status ≤ 499) (j : Json) :
    Sdk.classifyResponse (.http status (some j)) = .ok j := by
  have h401 : ¬ status = 401 := by omega
  have h400 : ¬ status = 400 := by omega
  have h500 : ¬ 500 ≤ status := by omega
  simp [Sdk.classifyResponse, h401, h400, h500]

/-- C7 witness: a 404 response with body `null` passes through as success. -/
theorem C7_theorem_witness :
    Sdk.classifyResponse (.http 404 (some Json.null)) = .ok Json.null :=
  C7_theorem 404 (by decide) (by decide) Json.null

/-- Python `s.startswith(pre)` on `str`: prefix test on the underlying
character sequence. -/
def pyStartsWith (s pre : String) : Bool :=
  pre.data.isPrefixOf s.data

/-- Python `s.upper()` restricted to what it does on the characters this
code ever compares against (`FT` detection): ASCII letters are mapped to
upper case, everything else is left unchanged.  This is exactly
`Char.toUpper` on each character.  (Full Unicode `str.upper()` agrees with
this model on the property used by the source: a character uppercases to
`F` or `T` iff it is `f`/`F` or `t`/`T`.) -/
def pyUpper (s : String) : String :=
  ⟨s.data.map Char.toUpper⟩

/-- Python `s.rstrip('/')`: drop trailing `/` characters. -/
def pyRstripSlashes (s : String) : String :=
  ⟨(s.data.reverse.dropWhile (fun c => c == '/')).reverse⟩

theorem char_toNat_ofNat_valid (m : Nat) (h : m < 0xd800) :
    (Char.ofNat m).toNat = m := by
  have hv : m.isValidChar := Or.inl h
  simp [Char.ofNat, hv, Char.ofNatAux, Char.toNat, UInt32.toNat, BitVec.toNat_ofNatLt]

theorem toUpper_eq_iff (c U L : Char)
    (hU : U.toNat < 97) (hL : L.toNat = U.toNat + 32)
    (hLlow : 97 ≤ L.toNat ∧ L.toNat ≤ 122) :
    Char.toUpper c = U ↔ (c = U ∨ c = L) := by
  constructor
  · intro h
    simp only [Char.toUpper] at h
    split at h
    · right
      rename_i hrange
      have h1 : (Char.ofNat (c.toNat - 32)).toNat = U.toNat := by rw [h]
      rw [char_toNat_ofNat_valid (c.toNat - 32) (by omega)] at h1
      have hc : c.toNat = L.toNat := by omega
      have h2 := Char.ofNat_toNat c
      rw [hc, Char.ofNat_toNat] at h2
      exact h2.symm
    · exact Or.inl h
  · rintro (rfl | rfl)
    · simp only [Char.toUpper]
      rw [if_neg (by omega)]
    · simp only [Char.toUpper]
      rw [if_pos (by omega)]
      have h1 : c.toNat - 32 = U.toNat := by omega
      rw [h1]
      exact Char.ofNat_toNat U

theorem toUpper_eq_F (c : Char) : Char.toUpper c = 'F' ↔ (c = 'F' ∨ c = 'f') :=
  toUpper_eq_iff c 'F' 'f' (by decide) (by decide) (by decide)

theorem toUpper_eq_T (c : Char) : Char.toUpper c = 'T' ↔ (c = 'T' ∨ c = 't') :=
  toUpper_eq_iff c 'T' 't' (by decide) (by decide) (by decide)

/-- The spec's own wording of the detection condition, §4.2/§8: the
identifier "— case-insensitively — starts with the literal prefix `FT`",
i.e. it starts with one of the four case variants of `FT`. -/
def startsWithFTci (s : String) : Bool :=
  pyStartsWith s "FT" || pyStartsWith s "Ft" || pyStartsWith s "fT" || pyStartsWith s "ft"

namespace Sdk

/-- Python truthiness of an optional string argument (`if merchant_name:`,
`if sub_provider:`, `if not provider:`): `None` and the empty string are
falsy, every other string is truthy. -/
def truthyStr : Option String → Bool
  | none => false
  | some s => s != ""

/-- Lines 148-152 of both `kyne.py` and `shegerpay.py` (`verify`):
`transaction_id.upper().startswith("FT")` selects `cbe`, else `telebirr`. -/
def detectFromTid (transaction_id : String) : String :=
  if pyStartsWith (pyUpper transaction_id) "FT" then "cbe" else "telebirr"

/-- `verify`'s provider resolution: `if not provider:` auto-detect from the
transaction id, else use the caller's provider.  (A falsy provider — `None`
or `""` — triggers auto-detection.) -/
def resolveProvider (transaction_id : String) (provider : Option String) : String :=
  if truthyStr provider then (provider.getD "") else detectFromTid transaction_id

end Sdk

theorem ftDetect_eq_ci (s : String) :
    (pyStartsWith (pyUpper s) "FT" = true) ↔ (startsWithFTci s = true) := by
  have hFT : "FT".data = ['F', 'T'] := rfl
  have hFt : "Ft".data = ['F', 't'] := rfl
  have hfT : "fT".data = ['f', 'T'] := rfl
  have hft : "ft".data = ['f', 't'] := rfl
  rcases s with ⟨l⟩
  simp only [pyStartsWith, pyUpper, startsWithFTci, Bool.or_eq_true,
    List.isPrefixOf_iff_prefix, hFT, hFt, hfT, hft]
  rcases l with _ | ⟨c1, _ | ⟨c2, t⟩⟩
  · simp
  · simp [List.cons_prefix_cons]
  · simp only [List.map_cons, List.cons_prefix_cons, List.nil_prefix, and_true,
      @eq_comm Char 'F', @eq_comm Char 'T', @eq_comm Char 'f', @eq_comm Char 't',
      toUpper_eq_F, toUpper_eq_T]
    tauto

/-- C5: with no explicit provider, `verify`'s auto-detection selects `cbe`
iff the transaction identifier starts with `FT` case-insensitively and
`telebirr` for every other identifier; the empty identifier deterministically
falls through to `telebirr` (the detection is a total function — it never
fails locally).  Identical code in `kyne.py` and `shegerpay.py` lines
147-152, embedded once as `Sdk.resolveProvider`. -/
theorem C5_theorem :
    (∀ tid : String,
        (Sdk.resolveProvider tid none = "cbe" ↔ startsWithFTci tid = true)
      ∧ (startsWithFTci tid = false → Sdk.resolveProvider tid none = "telebirr"))
    ∧ Sdk.resolveProvider "" none = "telebirr" := by
  have hmain : ∀ tid : String,
      (Sdk.resolveProvider tid none = "cbe" ↔ startsWithFTci tid = true)
    ∧ (startsWithFTci tid = false → Sdk.resolveProvider tid none = "telebirr") := by
    intro tid
    have hres : Sdk.resolveProvider tid none = Sdk.detectFromTid tid := rfl
    rw [hres]
    unfold Sdk.detectFromTid
    cases hd : pyStartsWith (pyUpper tid) "FT"
    · have hci : ¬ (startsWithFTci tid = true) := fun hc => by
        have := (ftDetect_eq_ci tid).mpr hc
        rw [hd] at this
        exact Bool.false_ne_true this
      rw [if_neg (by decide : ¬ (false = true))]
      refine ⟨⟨fun h => absurd h (by decide), fun h => absurd h hci⟩, fun _ => rfl⟩
    · have hci : startsWithFTci tid = true := (ftDetect_eq_ci tid).mp hd
      rw [if_pos (rfl : true = true)]
      exact ⟨⟨fun _ => hci, fun _ => rfl⟩, fun h => by rw [hci] at h; exact absurd h (by decide)⟩
  exact ⟨hmain, (hmain "").2 (by decide)⟩

/-- C5 witness: a lower-case `ft` id auto-detects as `cbe`; a non-`FT` id
as `telebirr`. -/
theorem C5_theorem_witness :
    Sdk.resolveProvider "ft24352648" none = "cbe"
    ∧ Sdk.resolveProvider "A1B2C3" none = "telebirr" :=
  ⟨(C5_theorem.1 "ft24352648").1.mpr (by decide),
   (C5_theorem.1 "A1B2C3").2 (by decide)⟩

/-- The session's HTTP headers installed by `__init__`
(`self._session.headers.update({...})`): the only shared mutable state of a
client.  Only `contentType` is ever mutated after construction. -/
structure Headers where
  authorization : String
  contentType : String
  userAgent : String
deriving DecidableEq

/-- A constructed client: `api_key`, `base_url` (default host, trailing
slashes stripped), `timeout`, derived `mode`, and the shared session
headers. -/
structure Client where
  api_key : String
  base_url : String
  timeout : Nat
  mode : String
  sessionHeaders : Headers
deriving DecidableEq

namespace Sdk

/-- `__init__`, lines 86-116 of both files (identical up to the branding
literals `default_base_url` and `user_agent`): an empty key or a key with
neither recognized prefix raises `AuthenticationError` (the constructor
contains no transport call — it only configures a local `requests.Session`);
otherwise the client is built with `mode = "test"` iff the key starts with
`sk_test_` (else `"live"`), `base_url` defaulted and right-stripped of `/`,
and the three session headers installed with form-encoded content type. -/
def initClientWith (default_base_url user_agent : String)
    (api_key : String) (base_url : Option String) (timeout : Nat) :
    Except SdkError Client :=
  if api_key = "" then
    .error ⟨.authentication, .str "API key is required", none⟩
  else if !(pyStartsWith api_key "sk_test_" || pyStartsWith api_key "sk_live_") then
    .error ⟨.authentication, .str "Invalid API key format. Must start with sk_test_ or sk_live_", none⟩
  else
    .ok { api_key := api_key
          base_url := pyRstripSlashes (base_url.getD default_base_url)
          timeout := timeout
          mode := if pyStartsWith api_key "sk_test_" then "test" else "live"
          sessionHeaders :=
            ⟨"Bearer " ++ api_key, "application/x-www-form-urlencoded", user_agent⟩ }

/-- Whether construction succeeded (no exception escaped `__init__`). -/
def isOkE {ε α : Type} : Except ε α → Bool
  | .ok _ => true
  | .error _ => false

/-- The derived mode of a successfully constructed client. -/
def modeOf? : Except SdkError Client → Option String
  | .ok c => some c.mode
  | .error _ => none

/-- The kind of the error a failed construction raised. -/
def errKindOf? : Except SdkError Client → Option ErrKind
  | .error e => some e.kind
  | .ok _ => none

end Sdk

/-- `Kyne.__init__` (kyne.py lines 84-116). -/
def Kyne.initClient : String → Option String → Nat → Except SdkError Client :=
  Sdk.initClientWith "https://api.kyne.com" "Kyne-Python-SDK/1.0"

/-- `ShegerPay.__init__` (shegerpay.py lines 84-116). -/
def ShegerPay.initClient : String → Option String → Nat → Except SdkError Client :=
  Sdk.initClientWith "https://api.shegerpay.com" "ShegerPay-Python-SDK/1.0"

theorem not_both_key_prefixes (key : String)
    (h : pyStartsWith key "sk_test_" = true) : pyStartsWith key "sk_live_" = false := by
  by_contra hc
  rw [Bool.not_eq_false] at hc
  unfold pyStartsWith at h hc
  rw [ List.isPrefixOf_iff_prefix, List.prefix_iff_eq_take] at h hc
  have hlt : ("sk_test_".data).length = 8 := rfl
  have hll : ("sk_live_".data).length = 8 := rfl
  rw [hlt] at h
  rw [hll] at hc
  have : "sk_test_".data = "sk_live_".data := by rw [h, hc]
  exact absurd this (by decide)

theorem initClientWith_spec (default_base_url user_agent key : String)
    (base : Option String) (t : Nat) :
    (Sdk.isOkE (Sdk.initClientWith default_base_url user_agent key base t) = true ↔
        (¬ key = "" ∧ (pyStartsWith key "sk_test_" = true ∨ pyStartsWith key "sk_live_" = true)))
    ∧ (Sdk.errKindOf? (Sdk.initClientWith default_base_url user_agent key base t)
          = some ErrKind.authentication
        ∨ Sdk.errKindOf? (Sdk.initClientWith default_base_url user_agent key base t) = none)
    ∧ (Sdk.modeOf? (Sdk.initClientWith default_base_url user_agent key base t) = some "test"
        ↔ pyStartsWith key "sk_test_" = true)
    ∧ (Sdk.modeOf? (Sdk.initClientWith default_base_url user_agent key base t) = some "live"
        ↔ pyStartsWith key "sk_live_" = true) := by
  by_cases hempty : key = ""
  · subst hempty
    have ht : pyStartsWith "" "sk_test_" = false := by decide
    have hl : pyStartsWith "" "sk_live_" = false := by decide
    refine ⟨?_, ?_, ?_, ?_⟩ <;>
      simp [Sdk.initClientWith, Sdk.isOkE, Sdk.errKindOf?, Sdk.modeOf?, ht, hl]
  · cases ht : pyStartsWith key "sk_test_" <;> cases hl : pyStartsWith key "sk_live_"
    · refine ⟨?_, ?_, ?_, ?_⟩ <;>
        simp [Sdk.initClientWith, Sdk.isOkE, Sdk.errKindOf?, Sdk.modeOf?, hempty, ht, hl]
    · refine ⟨?_, ?_, ?_, ?_⟩ <;>
        simp [Sdk.initClientWith, Sdk.isOkE, Sdk.errKindOf?, Sdk.modeOf?, hempty, ht, hl]
    · refine ⟨?_, ?_, ?_, ?_⟩ <;>
        simp [Sdk.initClientWith, Sdk.isOkE, Sdk.errKindOf?, Sdk.modeOf?, hempty, ht, hl]
    · exact absurd hl (by rw [not_both_key_prefixes key ht]; decide)

/-- C6: for every api_key, construction of either client succeeds iff the
key is non-empty and begins with `sk_test_` or `sk_live_`; every
construction failure is an `AuthenticationError` (the constructor performs
no transport call, so failure precedes any network activity and no client
value exists); on success the mode is `"test"` exactly when the key begins
with `sk_test_` and `"live"` exactly when it begins with `sk_live_`. -/
theorem C6_theorem (key : String) (base : Option String) (t : Nat) :
    ((Sdk.isOkE (Kyne.initClient key base t) = true ↔
        (¬ key = "" ∧ (pyStartsWith key "sk_test_" = true ∨ pyStartsWith key "sk_live_" = true)))
      ∧ (Sdk.errKindOf? (Kyne.initClient key base t) = some ErrKind.authentication
          ∨ Sdk.errKindOf? (Kyne.initClient key base t) = none)
      ∧ (Sdk.modeOf? (Kyne.initClient key base t) = some "test"
          ↔ pyStartsWith key "sk_test_" = true)
      ∧ (Sdk.modeOf? (Kyne.initClient key base t) = some "live"
          ↔ pyStartsWith key "sk_live_" = true))
    ∧ ((Sdk.isOkE (ShegerPay.initClient key base t) = true ↔
        (¬ key = "" ∧ (pyStartsWith key "sk_test_" = true ∨ pyStartsWith key "sk_live_" = true)))
      ∧ (Sdk.errKindOf? (ShegerPay.initClient key base t) = some ErrKind.authentication
          ∨ Sdk.errKindOf? (ShegerPay.initClient key base t) = none)
      ∧ (Sdk.modeOf? (ShegerPay.initClient key base t) = some "test"
          ↔ pyStartsWith key "sk_test_" = true)
      ∧ (Sdk.modeOf? (ShegerPay.initClient key base t) = some "live"
          ↔ pyStartsWith key "sk_live_" = true)) :=
  ⟨initClientWith_spec "https://api.kyne.com" "Kyne-Python-SDK/1.0" key base t,
   initClientWith_spec "https://api.shegerpay.com" "ShegerPay-Python-SDK/1.0" key base t⟩

/-- C6 witness: a `sk_test_` key constructs a Kyne client in mode `test`, a
`sk_live_` key constructs a ShegerPay client in mode `live`, and a key with
an unrecognized prefix fails with an `AuthenticationError`. -/
theorem C6_theorem_witness :
    Sdk.isOkE (Kyne.initClient "sk_test_abc" none 30) = true
    ∧ Sdk.modeOf? (Kyne.initClient "sk_test_abc" none 30) = some "test"
    ∧ Sdk.modeOf? (ShegerPay.initClient "sk_live_abc" none 30) = some "live"
    ∧ Sdk.isOkE (Kyne.initClient "pk_test_abc" none 30) = false :=
  ⟨( C6_theorem "sk_test_abc" none 30).1.1.mpr ⟨by decide, Or.inl (by decide)⟩,
   ( C6_theorem "sk_test_abc" none 30).1.2.2.1.mpr (by decide),
   ( C6_theorem "sk_live_abc" none 30).2.2.2.2.mpr (by decide),
   by
    have h := ( C6_theorem "pk_test_abc" none 30).1.1
    cases hv : Sdk.isOkE (Kyne.initClient "pk_test_abc" none 30)
    · rfl
    · exact absurd ((h.mp hv).2) (by decide)⟩

namespace Sdk

/-- `verify`'s outgoing payload, lines 154-166 of both files (identical up
to the branding literal `default_merchant`): the dict is built with
`provider` (resolved), `transaction_id` and `amount`; `merchant_name` is the
caller's value when truthy, else the branded default; `sub_provider` is
added only when the caller's value is truthy.  Python dict insertion order
is preserved. -/
def verifyDataWith (default_merchant : String) (transaction_id : String) (amount : Rat)
    (provider merchant_name sub_provider : Option String) : List (String × Json) :=
  let base := [("provider", Json.str (resolveProvider transaction_id provider)),
               ("transaction_id", Json.str transaction_id),
               ("amount", Json.num amount)]
  let withMerchant := base ++
    [("merchant_name",
      Json.str (if truthyStr merchant_name then merchant_name.getD "" else default_merchant))]
  if truthyStr sub_provider then
    withMerchant ++ [("sub_provider", Json.str (sub_provider.getD ""))]
  else
    withMerchant

end Sdk

/-- `Kyne.verify`'s payload (kyne.py lines 154-166). -/
def Kyne.verifyData : String → Rat → Option String → Option String → Option String →
    List (String × Json) :=
  Sdk.verifyDataWith "Kyne Verification"

/-- `ShegerPay.verify`'s payload (shegerpay.py lines 154-166). -/
def ShegerPay.verifyData : String → Rat → Option String → Option String → Option String →
    List (String × Json) :=
  Sdk.verifyDataWith "ShegerPay Verification"

theorem verifyDataWith_merchant_default (dm tid : String) (amt : Rat)
    (prov sub : Option String) :
    dget (Sdk.verifyDataWith dm tid amt prov none sub) "merchant_name" = some (Json.str dm) := by
  unfold Sdk.verifyDataWith
  cases hsub : Sdk.truthyStr sub <;> simp [dget, List.find?, Sdk.truthyStr]

theorem verifyDataWith_no_sub (dm tid : String) (amt : Rat) (prov mn : Option String) :
    dget (Sdk.verifyDataWith dm tid amt prov mn none) "sub_provider" = none := by
  unfold Sdk.verifyDataWith
  simp [dget, List.find?, Sdk.truthyStr]

theorem verifyDataWith_sub_verbatim (dm tid : String) (amt : Rat) (prov mn : Option String)
    (s : String) (hs : ¬ s = "") :
    dget (Sdk.verifyDataWith dm tid amt prov mn (some s)) "sub_provider"
      = some (Json.str s) := by
  unfold Sdk.verifyDataWith
  rw [if_pos (by simp [Sdk.truthyStr, hs])]
  simp [dget, List.find?]

theorem dget_ne_null_of_values (l : List (String × Json)) (key : String)
    (h : ∀ p ∈ l, ¬ p.2 = Json.null) : ¬ dget l key = some Json.null := by
  intro hk
  unfold dget at hk
  rcases hfind : l.find? (fun p => p.1 == key) with _ | p
  · rw [hfind] at hk
    simp at hk
  · rw [hfind] at hk
    simp at hk
    exact h p (List.mem_of_find?_eq_some hfind) hk

theorem verifyDataWith_values (dm tid : String) (amt : Rat) (prov mn sub : Option String) :
    ∀ p ∈ Sdk.verifyDataWith dm tid amt prov mn sub, ¬ p.2 = Json.null := by
  intro p hp
  unfold Sdk.verifyDataWith at hp
  cases hsub : Sdk.truthyStr sub <;> rw [hsub] at hp <;> simp at hp
  · rcases hp with h | h | h | h <;> rw [h] <;> simp
  · rcases hp with h | h | h | h | h <;> rw [h] <;> simp

theorem verifyDataWith_no_null (dm tid : String) (amt : Rat) (prov mn sub : Option String)
    (key : String) :
    ¬ dget (Sdk.verifyDataWith dm tid amt prov mn sub) key = some Json.null :=
  dget_ne_null_of_values _ key (verifyDataWith_values dm tid amt prov mn sub)

/-- C8: the claim says `sub_provider` "is included with exactly the
caller-supplied value when the caller supplied one"; but the source guards
with Python truthiness (`if sub_provider:`), so a caller-supplied empty
string is omitted from the payload. -/
theorem C8_counterexample :
    dget (ShegerPay.verifyData "TX1" 10 none none (some "")) "sub_provider" = none := by
  simp [ShegerPay.verifyData, Sdk.verifyDataWith, Sdk.truthyStr, dget, List.find?]

/-- C8 (amended): when no merchant_name is supplied the outgoing `verify`
payload always contains the branded non-empty default merchant_name
("Kyne Verification" / "ShegerPay Verification"); `sub_provider` is absent
when the caller did not supply it (or supplied the falsy empty string) and
is included verbatim when the caller supplied a non-empty value; no key of
the payload ever maps to an explicit JSON null. -/
theorem C8_theorem :
    (∀ (tid : String) (amt : Rat) (prov sub : Option String),
        dget (Kyne.verifyData tid amt prov none sub) "merchant_name"
          = some (Json.str "Kyne Verification"))
    ∧ (∀ (tid : String) (amt : Rat) (prov sub : Option String),
        dget (ShegerPay.verifyData tid amt prov none sub) "merchant_name"
          = some (Json.str "ShegerPay Verification"))
    ∧ ¬ ("Kyne Verification" = "") ∧ ¬ ("ShegerPay Verification" = "")
    ∧ (∀ (tid : String) (amt : Rat) (prov mn : Option String),
        dget (Kyne.verifyData tid amt prov mn none) "sub_provider" = none)
    ∧ (∀ (tid : String) (amt : Rat) (prov mn : Option String),
        dget (ShegerPay.verifyData tid amt prov mn none) "sub_provider" = none)
    ∧ (∀ (tid : String) (amt : Rat) (prov mn : Option String) (s : String), ¬ s = "" →
        dget (Kyne.verifyData tid amt prov mn (some s)) "sub_provider" = some (Json.str s))
    ∧ (∀ (tid : String) (amt : Rat) (prov mn : Option String) (s : String), ¬ s = "" →
        dget (ShegerPay.verifyData tid amt prov mn (some s)) "sub_provider" = some (Json.str s))
    ∧ (∀ (tid : String) (amt : Rat) (prov mn sub : Option String) (key : String),
        ¬ dget (Kyne.verifyData tid amt prov mn sub) key = some Json.null)
    ∧ (∀ (tid : String) (amt : Rat) (prov mn sub : Option String) (key : String),
        ¬ dget (ShegerPay.verifyData tid amt prov mn sub) key = some Json.null) :=
  ⟨fun tid amt prov sub => verifyDataWith_merchant_default "Kyne Verification" tid amt prov sub,
   fun tid amt prov sub =>
     verifyDataWith_merchant_default "ShegerPay Verification" tid amt prov sub,
   by decide, by decide,
   fun tid amt prov mn => verifyDataWith_no_sub "Kyne Verification" tid amt prov mn,
   fun tid amt prov mn => verifyDataWith_no_sub "ShegerPay Verification" tid amt prov mn,
   fun tid amt prov mn s hs => verifyDataWith_sub_verbatim "Kyne Verification" tid amt prov mn s hs,
   fun tid amt prov mn s hs =>
     verifyDataWith_sub_verbatim "ShegerPay Verification" tid amt prov mn s hs,
   fun tid amt prov mn sub key => verifyDataWith_no_null "Kyne Verification" tid amt prov mn sub key,
   fun tid amt prov mn sub key =>
     verifyDataWith_no_null "ShegerPay Verification" tid amt prov mn sub key⟩

/-- C8 witness: a non-empty caller-supplied sub_provider is forwarded
verbatim; an unsupplied merchant_name gets the branded default. -/
theorem C8_theorem_witness :
    dget (Kyne.verifyData "FT1" 5 none none (some "payoneer")) "sub_provider"
      = some (Json.str "payoneer")
    ∧ dget (ShegerPay.verifyData "FT1" 5 none none none) "merchant_name"
      = some (Json.str "ShegerPay Verification") :=
  ⟨C8_theorem.2.2.2.2.2.2.1 "FT1" 5 none none "payoneer" (by decide),
   C8_theorem.2.1 "FT1" 5 none none⟩

/-- `VerificationResult` (lines 19-42 of both files).  `valid` and `status`
hold whatever JSON value the body carried (or the lookup default), the
other six fields are the plain `dict.get` results, `none` when absent. -/
structure VerificationResult where
  valid : Json
  status : Json
  provider : Option Json
  transaction_id : Option Json
  amount : Option Json
  reason : Option Json
  mode : Option Json
  payer : Option Json

/-- `VerificationResult.from_response` (lines 31-42 of both files):
field-by-field construction with `data.get('valid', False)`,
`data.get('status', 'unknown')` and plain `data.get` for the rest. -/
def VerificationResult.from_response (data : List (String × Json)) : VerificationResult :=
  { valid := (dget data "valid").getD (Json.bool false)
    status := (dget data "status").getD (Json.str "unknown")
    provider := dget data "provider"
    transaction_id := dget data "transaction_id"
    amount := dget data "amount"
    reason := dget data "reason"
    mode := dget data "mode"
    payer := dget data "payer" }

/-- C9: `from_response` defaults an absent `valid` to false and an absent
`status` to "unknown", passes a present `valid`/`status` through unchanged,
and passes the six optional fields through as present-or-absent without
synthesis; on the body
`{"valid": true, "status": "verified", "provider": "cbe", "amount": 100}`
it yields valid=true, status="verified", provider="cbe", amount=100 and
unset transaction_id/reason/mode/payer. -/
theorem C9_theorem :
    (∀ data : List (String × Json),
        (dget data "valid" = none →
          (VerificationResult.from_response data).valid = Json.bool false)
      ∧ (∀ v, dget data "valid" = some v → (VerificationResult.from_response data).valid = v)
      ∧ (dget data "status" = none →
          (VerificationResult.from_response data).status = Json.str "unknown")
      ∧ (∀ v, dget data "status" = some v → (VerificationResult.from_response data).status = v)
      ∧ (VerificationResult.from_response data).provider = dget data "provider"
      ∧ (VerificationResult.from_response data).transaction_id = dget data "transaction_id"
      ∧ (VerificationResult.from_response data).amount = dget data "amount"
      ∧ (VerificationResult.from_response data).reason = dget data "reason"
      ∧ (VerificationResult.from_response data).mode = dget data "mode"
      ∧ (VerificationResult.from_response data).payer = dget data "payer")
    ∧ VerificationResult.from_response
        [("valid", Json.bool true), ("status", Json.str "verified"),
         ("provider", Json.str "cbe"), ("amount", Json.num 100)]
      = { valid := Json.bool true, status := Json.str "verified",
          provider := some (Json.str "cbe"), transaction_id := none,
          amount := some (Json.num 100), reason := none, mode := none, payer := none } := by
  refine ⟨fun data =>
    ⟨fun h => by simp [VerificationResult.from_response, h],
     fun v h => by simp [VerificationResult.from_response, h],
     fun h => by simp [VerificationResult.from_response, h],
     fun v h => by simp [VerificationResult.from_response, h],
     rfl, rfl, rfl, rfl, rfl, rfl⟩, ?_⟩
  simp [VerificationResult.from_response, dget, List.find?]

/-- C9 witness: the defaulting clauses applied at the empty body and a
pass-through clause applied at a body with an explicit `valid`. -/
theorem C9_theorem_witness :
    (VerificationResult.from_response []).valid = Json.bool false
    ∧ (VerificationResult.from_response []).status = Json.str "unknown"
    ∧ (VerificationResult.from_response [("valid", Json.str "yes")]).valid = Json.str "yes" :=
  ⟨(C9_theorem.1 []).1 rfl, (C9_theorem.1 []).2.2.1 rfl,
   (C9_theorem.1 [("valid", Json.str "yes")]).2.1 (Json.str "yes") rfl⟩

/-- One mapped `Transaction` dataclass instance (lines 45-54 of both
files).  The dataclass annotates all seven fields as required `str`/`float`,
but `get_history` fills them with `tx.get(...)` results, which are Python
`None` when the record lacks the key; the embedding therefore gives every
field type `Option Json`. -/
structure Transaction where
  id : Option Json
  provider : Option Json
  external_id : Option Json
  amount : Option Json
  status : Option Json
  created_at : Option Json
  mode : Option Json

/-- The request handed to `requests.Session.request`: method, path, the
body dict together with how it is encoded (`json=` versus form-encoded
`data=`), and the query-params dict. -/
structure HttpRequest where
  method : String
  path : String
  jsonBody : Option (List (String × Json))
  formBody : Option (List (String × Json))
  params : Option (List (String × Json))

namespace Sdk

/-- The `Transaction(...)` constructor call in `get_history` (lines 206-214
of both files): seven `tx.get` lookups, no defaulting, no validation. -/
def mkTransaction (fields : List (String × Json)) : Transaction :=
  ⟨dget fields "id", dget fields "provider", dget fields "external_id",
   dget fields "amount", dget fields "status", dget fields "created_at",
   dget fields "mode"⟩

/-- The `for tx in response:` loop of `get_history` (lines 204-216 of both
files) applied to a decoded JSON array: each element must be a JSON object
(any other element has no `.get` attribute, so Python raises
`AttributeError`); a record that is an object but lacks keys still maps —
the absent fields silently become `None`. -/
def mapHistoryRecords : List Json → PyOutcome (List Transaction)
  | [] => .ok []
  | tx :: rest =>
    match tx with
    | .obj fields =>
      match mapHistoryRecords rest with
      | .ok txs => .ok (mkTransaction fields :: txs)
      | .sdkErr e => .sdkErr e
      | .rawErr n => .rawErr n
    | _ => .rawErr "AttributeError"

/-- Python truthiness of the optional `data` dict (`if use_json and data:`):
`None` and the empty dict are falsy. -/
def truthyDict : Option (List (String × Json)) → Bool
  | none => false
  | some d => !d.isEmpty

end Sdk

namespace ShegerPay

/-- The transmission half of `ShegerPay._request` (shegerpay.py lines
586-607): `use_json` is read from the shared session's Content-Type header,
and the body is passed as `json=` when `use_json and data` is truthy, else
as form-encoded `data=`. -/
def requestSent (h : Headers) (method path : String)
    (data params : Option (List (String × Json))) : HttpRequest :=
  if (h.contentType == "application/json") && Sdk.truthyDict data then
    ⟨method, path, data, none, params⟩
  else
    ⟨method, path, none, data, params⟩

/-- `ShegerPay._request` in full (shegerpay.py lines 578-624): what is
transmitted, and how the transport's answer is classified (the
classification does not depend on the encoding). -/
def request (h : Headers) (method path : String)
    (data params : Option (List (String × Json))) (tr : TransportResult) :
    HttpRequest × PyOutcome Json :=
  (requestSent h method path data params, Sdk.classifyResponse tr)

/-- `ShegerPay.get_history(limit)` (shegerpay.py lines 192-216): the
`limit` parameter is accepted but never used; the call issues
`GET /api/v1/history` with no body and no params and maps the returned
JSON array element-wise into `Transaction` records.  (A 2xx body that is
not an array is modelled as a raw `TypeError`; the claims about this
operation only concern array bodies.) -/
def get_history (h : Headers) (limit : Int) (tr : TransportResult) :
    HttpRequest × PyOutcome (List Transaction) :=
  let r := request h "GET" "/api/v1/history" none none tr
  (r.1,
    match r.2 with
    | .ok (.arr items) => Sdk.mapHistoryRecords items
    | .ok _ => .rawErr "TypeError"
    | .sdkErr e => .sdkErr e
    | .rawErr n => .rawErr n)

end ShegerPay

namespace Kyne

/-- `Kyne._request` (kyne.py lines 218-252): the body is always passed as
form-encoded `data=` (this client never toggles the session content type);
the classification is the shared classifier. -/
def request (method path : String) (data params : Option (List (String × Json)))
    (tr : TransportResult) : HttpRequest × PyOutcome Json :=
  (⟨method, path, none, data, params⟩, Sdk.classifyResponse tr)

/-- `Kyne.get_history(limit)` (kyne.py lines 192-216): identical to the
ShegerPay variant — `limit` is accepted but never used. -/
def get_history (limit : Int) (tr : TransportResult) :
    HttpRequest × PyOutcome (List Transaction) :=
  let r := request "GET" "/api/v1/history" none none tr
  (r.1,
    match r.2 with
    | .ok (.arr items) => Sdk.mapHistoryRecords items
    | .ok _ => .rawErr "TypeError"
    | .sdkErr e => .sdkErr e
    | .rawErr n => .rawErr n)

end Kyne

/-- C10: `get_history`'s `limit` argument has no effect in either client:
for any two limits the identical request is issued — `GET /api/v1/history`
with no body and no query parameters, in particular nothing derived from
`limit` — and, for the same transport response, the identical mapped result
is returned. -/
theorem C10_theorem (l1 l2 : Int) (h : Headers) (tr : TransportResult) :
    ShegerPay.get_history h l1 tr = ShegerPay.get_history h l2 tr
    ∧ (ShegerPay.get_history h l1 tr).1 = ⟨"GET", "/api/v1/history", none, none, none⟩
    ∧ Kyne.get_history l1 tr = Kyne.get_history l2 tr
    ∧ (Kyne.get_history l1 tr).1 = ⟨"GET", "/api/v1/history", none, none, none⟩ := by
  refine ⟨rfl, ?_, rfl, rfl⟩
  simp [ShegerPay.get_history, ShegerPay.request, ShegerPay.requestSent, Sdk.truthyDict]

/-- C4: the claim says a history record lacking a required field surfaces a
response-validation error rather than producing a Transaction with null
data.  Evaluating `get_history` on a 200 response whose single record has
every field except `id`: the call raises nothing and returns a Transaction
whose `id` is `None` — exactly the silent null data the spec rules out, and
in conflict with the dataclass's own non-optional `id: str` annotation. -/
theorem C4_theorem :
    (ShegerPay.get_history
        ⟨"Bearer sk_test_k", "application/x-www-form-urlencoded", "ShegerPay-Python-SDK/1.0"⟩
        50
        (.http 200 (some (.arr [Json.obj
          [("provider", Json.str "cbe"), ("external_id", Json.str "FT1"),
           ("amount", Json.num 10), ("status", Json.str "verified"),
           ("created_at", Json.str "2024-01-01"), ("mode", Json.str "test")]])))).2
      = .ok [{ id := none, provider := some (Json.str "cbe"),
               external_id := some (Json.str "FT1"), amount := some (Json.num 10),
               status := some (Json.str "verified"),
               created_at := some (Json.str "2024-01-01"),
               mode := some (Json.str "test") }]
    ∧ (Kyne.get_history 50
        (.http 200 (some (.arr [Json.obj [("provider", Json.str "cbe")]])))).2
      = .ok [{ id := none, provider := some (Json.str "cbe"), external_id := none,
               amount := none, status := none, created_at := none, mode := none }] :=
  ⟨rfl, rfl⟩

namespace ShegerPay

/-- The session headers `ShegerPay.__init__` installs (shegerpay.py lines
111-116). -/
def initialHeaders (api_key : String) : Headers :=
  ⟨"Bearer " ++ api_key, "application/x-www-form-urlencoded", "ShegerPay-Python-SDK/1.0"⟩

/-- `ShegerPay.create_crypto_payment` (shegerpay.py lines 240-279): sets the
shared session Content-Type header to `application/json`, issues the POST,
and resets the header to form-encoded only after `_request` returns
normally; when `_request` raises, the exception propagates and the reset
line never runs.  The result pairs the outcome with the session headers
observable after the call. -/
def create_crypto_payment (h : Headers) (amount_usd : Rat)
    (currency wallet_address chain : String) (tr : TransportResult) :
    PyOutcome Json × Headers :=
  let h1 : Headers := { h with contentType := "application/json" }
  let r := request h1 "POST" "/api/v1/crypto/generate-intent"
      (some [("amount_usd", Json.num amount_usd),
             ("currency", Json.str (pyUpper currency)),
             ("wallet_address", Json.str wallet_address),
             ("chain", Json.str chain)]) none tr
  match r.2 with
  | .ok j => (.ok j, { h1 with contentType := "application/x-www-form-urlencoded" })
  | .sdkErr e => (.sdkErr e, h1)
  | .rawErr n => (.rawErr n, h1)

end ShegerPay

/-- C1: the claim says every operation leaves the session headers it
observes unchanged on success and on every error path.  Evaluating
`create_crypto_payment` on a client with the constructor's form-encoded
session headers: when the POST draws an HTTP 400 the classified
`ValidationError` propagates and the shared session Content-Type is left at
`application/json` — different from the headers before the call — so the
encoding decision leaks into shared client state exactly as §5 of the spec
warns; the same call on a 200 response restores the headers, confirming the
leak is specific to the error paths. -/
theorem C1_theorem :
    (ShegerPay.create_crypto_payment (ShegerPay.initialHeaders "sk_test_k") 50 "usdt"
        "TJCnKsPa7y" "TRON" (.http 400 (some (.obj [("detail", Json.str "bad request")])))).1
      = .sdkErr ⟨.validation, .str "bad request", some 400⟩
    ∧ (ShegerPay.create_crypto_payment (ShegerPay.initialHeaders "sk_test_k") 50 "usdt"
        "TJCnKsPa7y" "TRON" (.http 400 (some (.obj [("detail", Json.str "bad request")])))).2.contentType
      = "application/json"
    ∧ ¬ ((ShegerPay.create_crypto_payment (ShegerPay.initialHeaders "sk_test_k") 50 "usdt"
        "TJCnKsPa7y" "TRON" (.http 400 (some (.obj [("detail", Json.str "bad request")])))).2
      = ShegerPay.initialHeaders "sk_test_k")
    ∧ (ShegerPay.create_crypto_payment (ShegerPay.initialHeaders "sk_test_k") 50 "usdt"
        "TJCnKsPa7y" "TRON" (.http 200 (some (.obj [("reference_id", Json.str "SHGR-1")])))).2
      = ShegerPay.initialHeaders "sk_test_k" :=
  ⟨rfl, rfl, by decide, rfl⟩
